import Mathlib

/-!
Shallow embedding of the customizable-dashboard core (State Store in
`dashboard/js/state.js`, Layout Engine in the grid manager module) and
proofs of the specification claims about it.

Conventions of the embedding:
* JavaScript numbers holding grid coordinates/sizes are modelled as `Int`
  (all grid arithmetic in the source is integral).
* The `localStorage` blob is modelled by an explicit `StorageRead` value;
  JSON parse failure is the `corrupt` case.
* In-place mutation of `this.state` becomes explicit state passing; a
  method that `throw`s is modelled as returning `Except StoreErr _`.
* `Date.now()`-based fresh-id generation is modelled by an explicit
  generator parameter `gen : String → String`.
-/

namespace Dashboard

/-- A widget placement, as stored in `state.widgets` (`id,type,x,y,w,h,minimized,config`).
The opaque `config` map is modelled as an association list. -/
structure Widget where
  id : String
  ty : String
  x : Int
  y : Int
  w : Int
  h : Int
  minimized : Bool
  config : List (String × String)
  deriving DecidableEq, Repr

/-- Grid configuration `{cols, rowHeight, gap}`. -/
structure Grid where
  cols : Int
  rowHeight : Int
  gap : Int
  deriving DecidableEq, Repr

/-- The canonical `DashboardState` owned by the State Store. -/
structure DashboardState where
  grid : Grid
  widgets : List Widget
  theme : String
  version : String
  deriving DecidableEq, Repr

/-- The default state built in the `StateManager` constructor. -/
def defaultState : DashboardState :=
  { grid := { cols := 12, rowHeight := 4, gap := 1 }
  , widgets := []
  , theme := "system"
  , version := "1.0.0" }

/-- The current schema version (`this.state.version` in the constructor). -/
def currentVersion : String := "1.0.0"

/-! ## Layout Engine: `GridManager.hasOverlap` / `validatePosition` -/

/-- `GridManager.hasOverlap(x, y, w, h, occupied)`: scans rows `y..y+h-1`
and columns `x..x+w-1` and reports whether any cell is occupied.  The
occupied set is abstracted as a boolean predicate on `(col, row)`. -/
def hasOverlap (x y w h : Int) (occ : Int → Int → Bool) : Bool :=
  (List.range h.toNat).any fun r =>
    (List.range w.toNat).any fun c => occ (x + c) (y + r)

/-- `GridManager.getOccupiedCells(excludeId)` as a cell predicate: a cell is
occupied when some widget other than the excluded one covers it. -/
def occupiedCells (widgets : List Widget) (excludeId : Option String) (c r : Int) : Bool :=
  widgets.any fun wd =>
    decide (excludeId ≠ some wd.id) &&
    decide (wd.x ≤ c) && decide (c < wd.x + wd.w) &&
    decide (wd.y ≤ r) && decide (r < wd.y + wd.h)

/-- Inner `while (testX <= cols - w + 1)` loop of `validatePosition`:
starting at column `tx` on row `ty`, with `n` iterations remaining, return
the first column whose `w×h` rectangle is free, if any. -/
def scanRow (occ : Int → Int → Bool) (w h ty : Int) : Int → Nat → Option Int
  | _, 0 => none
  | tx, n + 1 =>
    if hasOverlap tx ty w h occ then scanRow occ w h ty (tx + 1) n else some tx

/-- Outer `while (testY < y + 20)` loop of `validatePosition`: scan `m`
rows starting at `ty`, each row scanning `cnt` columns from `x0`. -/
def scanRows (occ : Int → Int → Bool) (w h x0 : Int) (cnt : Nat) : Int → Nat → Option (Int × Int)
  | _, 0 => none
  | ty, m + 1 =>
    match scanRow occ w h ty x0 cnt with
    | some tx => some (tx, ty)
    | none => scanRows occ w h x0 cnt (ty + 1) m

/-- `GridManager.validatePosition(x, y, w, h, excludeId)`.  The grid width
`cols`, the `preventOverlap` configuration flag and the occupancy
predicate (already excluding the moved widget) are explicit parameters.
Clamps `x` to `max(1, min(cols - w + 1, x))` and `y` to `max(1, y)`, then,
when overlap prevention is on, searches row-major over 20 rows for the
first free cell, falling back to the clamped coordinates. -/
def validatePosition (cols : Int) (preventOverlap : Bool) (occ : Int → Int → Bool)
    (x y w h : Int) : Int × Int :=
  let x' := max 1 (min (cols - w + 1) x)
  let y' := max 1 y
  if preventOverlap then
    match scanRows occ w h x' (cols - w + 2 - x').toNat y' 20 with
    | some p => p
    | none => (x', y')
  else (x', y')

/-! ## Layout Engine: resize calculation and validation -/

/-- A candidate rectangle `{x, y, w, h}` as passed between
`calculateResize` and `validateResize`. -/
structure RectI where
  x : Int
  y : Int
  w : Int
  h : Int
  deriving DecidableEq, Repr

/-- The eight resize handle directions. -/
inductive Dir
  | dn | ds | de | dw | dne | dnw | dse | dsw
  deriving DecidableEq, Repr

/-- `GridManager.calculateResize(direction, deltaX, deltaY, x, y, w, h)`
restricted to grid units: `dgx`/`dgy` are the already-rounded
`deltaGridX`/`deltaGridY` (the pixel-to-grid rounding uses float division
and is outside the embedding). -/
def calculateResize (d : Dir) (dgx dgy x y w h : Int) : RectI :=
  match d with
  | .dn => { x := x, y := y + dgy, w := w, h := h - dgy }
  | .ds => { x := x, y := y, w := w, h := h + dgy }
  | .dw => { x := x + dgx, y := y, w := w - dgx, h := h }
  | .de => { x := x, y := y, w := w + dgx, h := h }
  | .dnw => { x := x + dgx, y := y + dgy, w := w - dgx, h := h - dgy }
  | .dne => { x := x, y := y + dgy, w := w + dgx, h := h - dgy }
  | .dsw => { x := x + dgx, y := y, w := w - dgx, h := h + dgy }
  | .dse => { x := x, y := y, w := w + dgx, h := h + dgy }

/-- `config.minWidgetSize` / `config.maxWidgetSize` from the constructor. -/
def minWidgetW : Int := 1
def minWidgetH : Int := 1
def maxWidgetW : Int := 12
def maxWidgetH : Int := 8

/-- `GridManager.validateResize(result, widgetId)`: clamp `w` to
`[minW, maxW]` and `h` to `[minH, maxH]`, clamp `x`/`y` to `≥ 1`, then
`x` to `≤ cols - w + 1`, and finally (when overlap prevention is on)
re-run `validatePosition` on the clamped rectangle. -/
def validateResize (cols : Int) (preventOverlap : Bool) (occ : Int → Int → Bool)
    (r : RectI) : RectI :=
  let w := max minWidgetW (min maxWidgetW r.w)
  let h := max minWidgetH (min maxWidgetH r.h)
  let x0 := max 1 r.x
  let y0 := max 1 r.y
  let x1 := min (cols - w + 1) x0
  if preventOverlap then
    let p := validatePosition cols preventOverlap occ x1 y0 w h
    { x := p.1, y := p.2, w := w, h := h }
  else
    { x := x1, y := y0, w := w, h := h }

/-! ## Layout Engine: keyboard navigation (`GridManager.handleKeyDown`) -/

/-- The four arrow keys. -/
inductive Arrow
  | up | down | left | right
  deriving DecidableEq, Repr

/-- A call into the State Store committed by the engine. -/
inductive StoreCall
  | move (x y : Int)
  | resize (w h : Int)
  deriving DecidableEq, Repr

/-- The movement `switch` of `handleKeyDown`: the candidate `(x, y)`
before `validatePosition` is applied. -/
def keyMoveCandidate (cols : Int) (delta : Int) (k : Arrow) (cfg : RectI) : Int × Int :=
  match k with
  | .up => (cfg.x, max 1 (cfg.y - delta))
  | .down => (cfg.x, cfg.y + delta)
  | .left => (max 1 (cfg.x - delta), cfg.y)
  | .right => (min (cols - cfg.w + 1) (cfg.x + delta), cfg.y)

/-- The resizing `switch` of `handleKeyDown`: the new `(w, h)` obtained by
clamping against `minWidgetSize`/`maxWidgetSize` only. -/
def keyResize (delta : Int) (k : Arrow) (w h : Int) : Int × Int :=
  match k with
  | .up => (w, max minWidgetH (h - delta))
  | .down => (w, min maxWidgetH (h + delta))
  | .left => (max minWidgetW (w - delta), h)
  | .right => (min maxWidgetW (w + delta), h)

/-- `GridManager.handleKeyDown` for an arrow key on a focused widget with
placement `cfg`: the movement branch always runs (candidate step of 1, or
5 with Shift, validated by `validatePosition` and committed with
`moveWidget`); when Ctrl/Meta is held the resizing branch additionally
runs on the updated config (step 1, or 2 with Shift, min/max clamp only,
committed with `resizeWidget`).  Returns the final widget config and the
list of store calls issued, in order. -/
def handleKeyDown (cols : Int) (preventOverlap : Bool) (occ : Int → Int → Bool)
    (shift modifier : Bool) (k : Arrow) (cfg : RectI) : RectI × List StoreCall :=
  let delta := if shift then 5 else 1
  let c := keyMoveCandidate cols delta k cfg
  let vp := validatePosition cols preventOverlap occ c.1 c.2 cfg.w cfg.h
  let cfg1 : RectI := { cfg with x := vp.1, y := vp.2 }
  if modifier then
    let rdelta := if shift then 2 else 1
    let s := keyResize rdelta k cfg1.w cfg1.h
    ({ cfg1 with w := s.1, h := s.2 }, [.move vp.1 vp.2, .resize s.1 s.2])
  else
    (cfg1, [.move vp.1 vp.2])

/-! ## State Store: validation (`validateWidget`, `validateState`) -/

/-- `StateManager.validateWidget(widget)`: the typeof checks hold by
typing; `!widget.id` / `!widget.type` reject the empty string (falsy);
`config` is always an object in the model. -/
def validateWidget (wd : Widget) : Bool :=
  decide (wd.id ≠ "") && decide (wd.ty ≠ "") &&
  decide (1 ≤ wd.x) && decide (1 ≤ wd.y) &&
  decide (1 ≤ wd.w) && decide (1 ≤ wd.h)

/-- A parsed stored record (the result of `JSON.parse` on the persisted
blob, or an imported layout document).  `none` fields model
missing/null/wrongly-typed JSON members. -/
structure StoredRecord where
  grid : Option Grid
  widgets : Option (List Widget)
  theme : Option String
  version : Option String
  deriving DecidableEq, Repr

/-- `StateManager.validateState(state)` on a parsed record: grid present
with `1 ≤ cols ≤ 24`, `rowHeight ≥ 1`, `gap ≥ 0`; widgets present and
each valid; theme present and truthy (non-empty). -/
def validateState (r : StoredRecord) : Bool :=
  match r.grid, r.widgets, r.theme with
  | some g, some ws, some t =>
    decide (1 ≤ g.cols) && decide (g.cols ≤ 24) &&
    decide (1 ≤ g.rowHeight) && decide (0 ≤ g.gap) &&
    decide (t ≠ "") && ws.all validateWidget
  | _, _, _ => false

/-- The live `this.state` viewed as a stored record (what `validateState`
would see after `exportLayout`, and what the spread merge consumes). -/
def toRecord (s : DashboardState) : StoredRecord :=
  { grid := some s.grid, widgets := some s.widgets
  , theme := some s.theme, version := some s.version }

/-- Validity of a live `DashboardState` (i.e. `validateState` on its
record view). -/
def validLiveState (s : DashboardState) : Bool :=
  validateState (toRecord s)

/-! ## State Store: version comparison and migration -/

/-- `Number(p) || 0` applied to one dotted-version component: a
non-numeric component gives `NaN`, which `|| 0` turns into `0`;  a
missing component is likewise `0`. -/
def parseVersionPart (s : String) : Int :=
  (s.toInt?).getD 0

/-- `StateManager.compareVersions(a, b)`: componentwise ordinal
comparison of dotted versions, first difference wins, `0` on equality. -/
def compareVersions (a b : String) : Int :=
  let ap := (a.splitOn ".").map parseVersionPart
  let bp := (b.splitOn ".").map parseVersionPart
  let n := max ap.length bp.length
  ((List.range n).findSome? fun i =>
    let av := (ap.get? i).getD 0
    let bv := (bp.get? i).getD 0
    if av < bv then some (-1) else if bv < av then some 1 else none).getD 0

/-- `StateManager.migrateToV1(state)`: fill missing fields with defaults
(`state.grid || this.state.grid`, `state.widgets || []`,
`state.theme || 'system'`), stamp version `1.0.0`, and regenerate the id
of any widget whose id was already seen (`gen` models
`generateWidgetId`). -/
def migrateToV1 (gen : String → String) (r : StoredRecord) : StoredRecord :=
  let dedup : List Widget → List Widget := fun ws =>
    (ws.foldl (fun (acc : List Widget × List String) wd =>
      let wd := if acc.2.contains wd.id then { wd with id := gen wd.ty } else wd
      (acc.1 ++ [wd], acc.2 ++ [wd.id])) ([], [])).1
  { grid := some ((r.grid).getD defaultState.grid)
  , widgets := some (dedup ((r.widgets).getD []))
  , theme := some (match r.theme with
      | some t => if t = "" then "system" else t
      | none => "system")
  , version := some "1.0.0" }

/-- `state.version || '0.0.0'`: missing or empty version reads as
`0.0.0`. -/
def recordVersion (r : StoredRecord) : String :=
  match r.version with
  | some v => if v = "" then "0.0.0" else v
  | none => "0.0.0"

/-- `StateManager.migrateState(state)`: identity when the stored version
string equals the current one; otherwise run the version-gated chain
(pre-1.0.0 → `migrateToV1`) and stamp the current version. -/
def migrateState (gen : String → String) (r : StoredRecord) : StoredRecord :=
  if recordVersion r = currentVersion then r
  else
    let m := if compareVersions (recordVersion r) "1.0.0" < 0 then migrateToV1 gen r else r
    { m with version := some currentVersion }

/-! ## State Store: load / init -/

/-- What `localStorage.getItem` + `JSON.parse` can yield: no record,
a read/parse failure (`JSON.parse` throws), or a parsed record. -/
inductive StorageRead
  | absent
  | corrupt
  | record (r : StoredRecord)
  deriving DecidableEq, Repr

/-- Whether `load` scheduled a (debounced) `save()` of the default
state. -/
inductive PersistAction
  | noSave
  | scheduledSave
  deriving DecidableEq, Repr

/-- `this.state = { ...this.state, ...migratedState }`: the record's
(validated, hence present) fields override the defaults. -/
def mergeState (s : DashboardState) (r : StoredRecord) : DashboardState :=
  { grid := (r.grid).getD s.grid
  , widgets := (r.widgets).getD s.widgets
  , theme := (r.theme).getD s.theme
  , version := (r.version).getD s.version }

/-- `StateManager.load()`: on a parsed record, migrate then validate,
installing the merged state on success and keeping the default (with a
debounced save) on validation failure; on no record, keep the default
and schedule a save; a read/parse failure is caught, logged and
**re-thrown** (`throw error`), modelled as `Except.error`. -/
def load (gen : String → String) (r : StorageRead) :
    Except Unit (DashboardState × PersistAction) :=
  match r with
  | .absent => .ok (defaultState, .scheduledSave)
  | .corrupt => .error ()
  | .record rec =>
    let m := migrateState gen rec
    if validateState m then .ok (mergeState defaultState m, .noSave)
    else .ok (defaultState, .scheduledSave)

/-- `StateManager.init()`: awaits `load()` and catches any error, leaving
the default state in place (and persisting nothing). -/
def init (gen : String → String) (r : StorageRead) : DashboardState × PersistAction :=
  match load gen r with
  | .ok p => p
  | .error _ => (defaultState, .noSave)

/-! ## State Store: mutation operations -/

/-- The two kinds of error thrown by store mutations: `validation` for
`'Invalid …'` messages, `notFound` for `'Widget not found: …'`. -/
inductive StoreErr
  | validation
  | notFound
  deriving DecidableEq, Repr

/-- `StateManager.addWidget(widget)`: reject an invalid widget; on an id
collision with an existing widget, regenerate the id; push onto
`state.widgets`. -/
def addWidget (gen : String → String) (s : DashboardState) (wd : Widget) :
    Except StoreErr DashboardState :=
  if validateWidget wd then
    let wd := if s.widgets.any fun w0 => w0.id = wd.id then { wd with id := gen wd.ty } else wd
    .ok { s with widgets := s.widgets ++ [wd] }
  else .error .validation

/-- A partial update object (`{ ...widget, ...updates }`): present fields
override the widget's. -/
structure WidgetPatch where
  id : Option String := none
  ty : Option String := none
  x : Option Int := none
  y : Option Int := none
  w : Option Int := none
  h : Option Int := none
  minimized : Option Bool := none
  config : Option (List (String × String)) := none
  deriving Repr

/-- The object-spread merge `{ ...widget, ...updates }`. -/
def applyPatch (wd : Widget) (p : WidgetPatch) : Widget :=
  { id := (p.id).getD wd.id
  , ty := (p.ty).getD wd.ty
  , x := (p.x).getD wd.x
  , y := (p.y).getD wd.y
  , w := (p.w).getD wd.w
  , h := (p.h).getD wd.h
  , minimized := (p.minimized).getD wd.minimized
  , config := (p.config).getD wd.config }

/-- `findIndex`-then-replace on the first widget with the given id:
`StateManager.updateWidget(id, updates)`. -/
def updateWidgetList (p : WidgetPatch) (id : String) :
    List Widget → Except StoreErr (List Widget)
  | [] => .error .notFound
  | wd :: ws =>
    if wd.id = id then
      let wd' := applyPatch wd p
      if validateWidget wd' then .ok (wd' :: ws) else .error .validation
    else (updateWidgetList p id ws).map fun ws' => wd :: ws'

/-- `StateManager.updateWidget(id, updates)`. -/
def updateWidget (s : DashboardState) (id : String) (p : WidgetPatch) :
    Except StoreErr DashboardState :=
  (updateWidgetList p id s.widgets).map fun ws => { s with widgets := ws }

/-- In-place mutation of the first widget found by id (as
`find(...)` + field assignment does); `.error` when the id is absent. -/
def mutateFirst (f : Widget → Widget) (id : String) :
    List Widget → Except StoreErr (List Widget)
  | [] => .error .notFound
  | wd :: ws =>
    if wd.id = id then .ok (f wd :: ws)
    else (mutateFirst f id ws).map fun ws' => wd :: ws'

/-- `StateManager.removeWidget(id)`: splice out the first widget with the
id. -/
def removeWidget (s : DashboardState) (id : String) : Except StoreErr DashboardState :=
  match s.widgets.findIdx? (fun wd => wd.id = id) with
  | none => .error .notFound
  | some i => .ok { s with widgets := s.widgets.eraseIdx i }

/-- `StateManager.moveWidget(id, x, y)`: sets `widget.x`/`widget.y` with
no placement validation. -/
def moveWidget (s : DashboardState) (id : String) (x y : Int) :
    Except StoreErr DashboardState :=
  (mutateFirst (fun wd => { wd with x := x, y := y }) id s.widgets).map
    fun ws => { s with widgets := ws }

/-- `StateManager.resizeWidget(id, w, h)`: sets `widget.w`/`widget.h`
with no size validation. -/
def resizeWidget (s : DashboardState) (id : String) (w h : Int) :
    Except StoreErr DashboardState :=
  (mutateFirst (fun wd => { wd with w := w, h := h }) id s.widgets).map
    fun ws => { s with widgets := ws }

/-- `StateManager.toggleWidgetMinimized(id)`: negates the `minimized`
flag of the first widget with the id. -/
def toggleWidgetMinimized (s : DashboardState) (id : String) :
    Except StoreErr DashboardState :=
  (mutateFirst (fun wd => { wd with minimized := !wd.minimized }) id s.widgets).map
    fun ws => { s with widgets := ws }

/-- The valid themes of `StateManager.setTheme`. -/
def validThemes : List String := ["system", "light", "dark", "amoled"]

/-- `StateManager.setTheme(theme)`. -/
def setTheme (s : DashboardState) (t : String) : Except StoreErr DashboardState :=
  if validThemes.contains t then .ok { s with theme := t } else .error .validation

/-- The argument of `StateManager.updateGrid`: absent or zero (falsy)
members fall back to the current grid. -/
structure GridPatch where
  cols : Option Int := none
  rowHeight : Option Int := none
  gap : Option Int := none
  deriving Repr

/-- `gridConfig.f || this.state.grid.f`: `0` is falsy. -/
def gridFieldOr (v : Option Int) (cur : Int) : Int :=
  match v with
  | some n => if n = 0 then cur else n
  | none => cur

/-- `StateManager.updateGrid(gridConfig)`: clamps `cols` to `[1, 24]`,
`rowHeight` to `≥ 1`, `gap` to `≥ 0`; never throws. -/
def updateGrid (s : DashboardState) (p : GridPatch) : DashboardState :=
  { s with grid :=
    { cols := max 1 (min 24 (gridFieldOr p.cols s.grid.cols))
    , rowHeight := max 1 (gridFieldOr p.rowHeight s.grid.rowHeight)
    , gap := max 0 (gridFieldOr p.gap s.grid.gap) } }

/-! ## State Store: persistence, quota handling, export/import -/

/-- Outcome of one `localStorage.setItem` attempt. -/
inductive WriteResult
  | ok
  | quotaFull
  | otherErr
  deriving DecidableEq, Repr

/-- `StateManager.handleQuotaExceeded()` keeps only the essential state:
grid, the last 20 widgets (`widgets.slice(-20)`), theme and version. -/
def essentialState (s : DashboardState) : DashboardState :=
  { grid := s.grid
  , widgets := s.widgets.drop (s.widgets.length - 20)
  , theme := s.theme
  , version := s.version }

/-- `StateManager.saveImmediate()` with the outcomes of the successive
`setItem` attempts made explicit: `first` is the outcome of writing the
full state; on `quotaFull`, `handleQuotaExceeded` retries once with the
trimmed state (`retryOk`); if the retry also throws, `reset()` installs
the default state (and writes it).  Returns the resulting state and the
widget lists of the records written, in order of attempt. -/
def saveImmediate (first : WriteResult) (retryOk : Bool) (s : DashboardState) :
    DashboardState × List (List Widget) :=
  match first with
  | .ok => (s, [s.widgets])
  | .otherErr => (s, [s.widgets])
  | .quotaFull =>
    let e := essentialState s
    if retryOk then (e, [s.widgets, e.widgets])
    else (defaultState, [s.widgets, e.widgets, defaultState.widgets])

/-- `StateManager.exportLayout()`: a snapshot of the state as a record
(the `exportedAt`/`exportVersion` tags carry no layout data and are
dropped by the embedding). -/
def exportLayout (s : DashboardState) : StoredRecord :=
  toRecord s

/-- `StateManager.importLayout(layoutData)`: reject a null document,
migrate, validate the migrated document in full, then replace the state
with the migrated record, reassigning fresh ids (`gen` models
`generateWidgetId`) and keeping the store's own version.  Any failure
happens before the state is touched. -/
def importLayout (gen : String → String) (s : DashboardState)
    (doc : Option StoredRecord) : Except StoreErr DashboardState :=
  match doc with
  | none => .error .validation
  | some d =>
    let m := migrateState gen d
    if validateState m then
      .ok { grid := (m.grid).getD s.grid
          , widgets := ((m.widgets).getD []).map fun wd => { wd with id := gen wd.ty }
          , theme := (m.theme).getD s.theme
          , version := s.version }
    else .error .validation

/-! ## State Store: debounced save (`save` / `flush`) -/

/-- The debounce bookkeeping of the store: the deadline of the pending
`setTimeout`, if any, and the number of persisted writes so far. -/
structure DebounceState where
  pending : Option Int
  writes : Nat
  deriving DecidableEq, Repr

/-- The event loop delivering a due timer: if the pending timer's
deadline has passed by time `t`, its callback runs `saveImmediate`
(one write) and the timer is gone. -/
def deliverTimer (t : Int) (s : DebounceState) : DebounceState :=
  match s.pending with
  | some d => if d ≤ t then { pending := none, writes := s.writes + 1 } else s
  | none => s

/-- `StateManager.save()` called at time `t`: any due timer fires first
(event-loop order), then the pending timer is cleared and replaced by one
due at `t + 500` (`debounceDelay`). -/
def doSave (t : Int) (s : DebounceState) : DebounceState :=
  let s := deliverTimer t s
  { pending := some (t + 500), writes := s.writes }

/-- `StateManager.flush()` called at time `t`: any due timer fires first;
then, if a timer is still pending, it is cancelled and `saveImmediate`
runs synchronously. -/
def doFlush (t : Int) (s : DebounceState) : DebounceState :=
  let s := deliverTimer t s
  match s.pending with
  | some _ => { pending := none, writes := s.writes + 1 }
  | none => s

/-- End of the trace: a still-pending timer eventually fires. -/
def finalizeDebounce (s : DebounceState) : DebounceState :=
  match s.pending with
  | some _ => { pending := none, writes := s.writes + 1 }
  | none => s

/-- Run a sequence of `save()` calls at the given times. -/
def runSaves (ts : List Int) (s : DebounceState) : DebounceState :=
  ts.foldl (fun acc t => doSave t acc) s

/-- Consecutive call times each arriving strictly within 500 ms of the
previous one (so the pending timer is not yet due at any of them). -/
def within500 : Int → List Int → Bool
  | _, [] => true
  | prev, t :: ts => decide (prev ≤ t) && decide (t < prev + 500) && within500 t ts

/-- The time of the last call in the burst. -/
def lastTime : Int → List Int → Int
  | t, [] => t
  | _, t :: ts => lastTime t ts

/-- The store's debounce bookkeeping at construction: no pending timer,
nothing written. -/
def initialDebounce : DebounceState := { pending := none, writes := 0 }

/-! ## Abbreviations for the clamping steps of `validatePosition` -/

/-- The clamp `x = Math.max(1, Math.min(cols - w + 1, x))`. -/
def clampX (cols w x : Int) : Int := max 1 (min (cols - w + 1) x)

/-- The clamp `y = Math.max(1, y)`. -/
def clampY (y : Int) : Int := max 1 y

/-! ## Concrete instances used by witnesses and counterexamples -/

/-- The empty occupancy predicate (no other widgets). -/
def occEmpty : Int → Int → Bool := fun _ _ => false

/-- A widget `A` at `(1,1,3,2)`, as in the spec's placement scenario. -/
def widgetA : Widget := { id := "a", ty := "clock", x := 1, y := 1, w := 3, h := 2
                        , minimized := false, config := [] }

/-- Occupancy of widget `A` as seen while validating a placement for a
different widget `b`. -/
def occA : Int → Int → Bool := occupiedCells [widgetA] (some "b")

/-- A one-widget state used to exercise the store mutations. -/
def stateA : DashboardState := { defaultState with widgets := [widgetA] }

/-- A 25-widget state used for the quota-recovery scenario: widget `k`
sits in its own row (`y = k + 1`). -/
def state25 : DashboardState :=
  { defaultState with
    widgets := (List.range 25).map fun k =>
      { id := toString k, ty := "notes", x := 1, y := (k : Int) + 1, w := 3, h := 1
      , minimized := false, config := [] } }

/-- A deterministic fresh-id generator for witnesses. -/
def genFresh : String → String := fun t => t ++ "-fresh"

/-! ## Lemmas about the bounded row-major search -/

theorem scanRow_some_spec (occ : Int → Int → Bool) (w h ty : Int) :
    ∀ (n : Nat) (tx cx : Int), scanRow occ w h ty tx n = some cx →
    ∃ j : Nat, j < n ∧ cx = tx + j ∧ hasOverlap cx ty w h occ = false ∧
      ∀ j' : Nat, j' < j → hasOverlap (tx + j') ty w h occ = true := by
  intro n
  induction n with
  | zero => intro tx cx hscan; simp [scanRow] at hscan
  | succ n ih =>
    intro tx cx hscan
    by_cases hov : hasOverlap tx ty w h occ = true
    · rw [scanRow, if_pos hov] at hscan
      obtain ⟨j, hj, hcx, hfree, hbefore⟩ := ih (tx + 1) cx hscan
      refine ⟨j + 1, by omega, by rw [hcx]; push_cast; ring, hfree, ?_⟩
      intro j' hj'
      match j' with
      | 0 => simpa using hov
      | Nat.succ j'' =>
        have := hbefore j'' (by omega)
        have harith : tx + ((j'' : Int) + 1) = tx + 1 + (j'' : Int) := by ring
        push_cast
        rw [harith]
        exact this
    · rw [scanRow, if_neg hov] at hscan
      refine ⟨0, by omega, by simpa using hscan.symm, ?_, by omega⟩
      cases hscan
      simpa using Bool.eq_false_iff.mpr (by simpa using hov)

theorem scanRow_none_iff (occ : Int → Int → Bool) (w h ty : Int) :
    ∀ (n : Nat) (tx : Int), scanRow occ w h ty tx n = none ↔
      ∀ j : Nat, j < n → hasOverlap (tx + j) ty w h occ = true := by
  intro n
  induction n with
  | zero => intro tx; simp [scanRow]
  | succ n ih =>
    intro tx
    by_cases hov : hasOverlap tx ty w h occ = true
    · rw [scanRow, if_pos hov, ih]
      constructor
      · intro hall j hj
        match j with
        | 0 => simpa using hov
        | Nat.succ j' =>
          have := hall j' (by omega)
          have harith : tx + ((j' : Int) + 1) = tx + 1 + (j' : Int) := by ring
          push_cast
          rw [harith]
          exact this
      · intro hall j hj
        have := hall (j + 1) (by omega)
        have harith : tx + 1 + (j : Int) = tx + ((j : Int) + 1) := by ring
        rw [harith]
        push_cast at this ⊢
        exact this
    · rw [scanRow, if_neg hov]
      simp only [false_iff, reduceCtorEq]
      intro hall
      have := hall 0 (by omega)
      simp only [Nat.cast_zero, add_zero] at this
      exact hov this

theorem scanRows_some_spec (occ : Int → Int → Bool) (w h x0 : Int) (cnt : Nat) :
    ∀ (m : Nat) (ty cx cy : Int), scanRows occ w h x0 cnt ty m = some (cx, cy) →
    ∃ i : Nat, i < m ∧ cy = ty + i ∧ scanRow occ w h (ty + i) x0 cnt = some cx ∧
      ∀ i' : Nat, i' < i → scanRow occ w h (ty + i') x0 cnt = none := by
  intro m
  induction m with
  | zero => intro ty cx cy hscan; simp [scanRows] at hscan
  | succ m ih =>
    intro ty cx cy hscan
    rw [scanRows] at hscan
    cases hrow : scanRow occ w h ty x0 cnt with
    | some tx =>
      rw [hrow] at hscan
      simp only [Option.some.injEq, Prod.mk.injEq] at hscan
      obtain ⟨hcx, hcy⟩ := hscan
      exact ⟨0, by omega, by simp [hcy], by simpa [hcx] using hrow, by omega⟩
    | none =>
      rw [hrow] at hscan
      obtain ⟨i, hi, hcy, hfound, hbefore⟩ := ih (ty + 1) cx cy hscan
      refine ⟨i + 1, by omega, by rw [hcy]; push_cast; ring, ?_, ?_⟩
      · have harith : ty + ((i : Int) + 1) = ty + 1 + (i : Int) := by ring
        push_cast
        rw [harith]
        exact hfound
      · intro i' hi'
        match i' with
        | 0 => simpa using hrow
        | Nat.succ i'' =>
          have := hbefore i'' (by omega)
          have harith : ty + ((i'' : Int) + 1) = ty + 1 + (i'' : Int) := by ring
          push_cast
          rw [harith]
          exact this

theorem scanRows_none_iff (occ : Int → Int → Bool) (w h x0 : Int) (cnt : Nat) :
    ∀ (m : Nat) (ty : Int), scanRows occ w h x0 cnt ty m = none ↔
      ∀ i : Nat, i < m → scanRow occ w h (ty + i) x0 cnt = none := by
  intro m
  induction m with
  | zero => intro ty; simp [scanRows]
  | succ m ih =>
    intro ty
    rw [scanRows]
    cases hrow : scanRow occ w h ty x0 cnt with
    | some tx =>
      simp only [false_iff, reduceCtorEq]
      intro hall
      have := hall 0 (by omega)
      simp only [Nat.cast_zero, add_zero] at this
      rw [this] at hrow
      exact Option.noConfusion hrow
    | none =>
      rw [ih]
      constructor
      · intro hall i hi
        match i with
        | 0 => simpa using hrow
        | Nat.succ i' =>
          have := hall i' (by omega)
          have harith : ty + ((i' : Int) + 1) = ty + 1 + (i' : Int) := by ring
          push_cast
          rw [harith]
          exact this
      · intro hall i hi
        have := hall (i + 1) (by omega)
        have harith : ty + 1 + (i : Int) = ty + ((i : Int) + 1) := by ring
        rw [harith]
        push_cast at this ⊢
        exact this

theorem clampX_ge_one (cols w x : Int) : 1 ≤ clampX cols w x :=
  le_max_left 1 _

theorem clampX_le (cols w x : Int) (hwc : w ≤ cols) : clampX cols w x ≤ cols - w + 1 :=
  max_le (by omega) (min_le_left _ _)

theorem clampY_ge_one (y : Int) : 1 ≤ clampY y :=
  le_max_left 1 y

/-- `validatePosition` with overlap prevention on, written through the
clamps and the bounded scan. -/
theorem validatePosition_eq_scan (cols x y w h : Int) (occ : Int → Int → Bool) :
    validatePosition cols true occ x y w h =
      (match scanRows occ w h (clampX cols w x)
          ((cols - w + 2 - clampX cols w x).toNat) (clampY y) 20 with
       | some p => p
       | none => (clampX cols w x, clampY y)) := rfl

/-- Whatever the occupancy, the result of `validatePosition` (with
overlap prevention on) lies in-bounds provided the width fits the grid:
`1 ≤ x`, `x + w - 1 ≤ cols`, `1 ≤ y`. -/
theorem validatePosition_result_bounds (cols x y w h : Int) (occ : Int → Int → Bool)
    (hwc : w ≤ cols) :
    1 ≤ (validatePosition cols true occ x y w h).1 ∧
    (validatePosition cols true occ x y w h).1 + w - 1 ≤ cols ∧
    1 ≤ (validatePosition cols true occ x y w h).2 := by
  have hvp := validatePosition_eq_scan cols x y w h occ
  set cx := clampX cols w x with hcxdef
  set cy := clampY y with hcydef
  set cnt := (cols - w + 2 - cx).toNat with hcntdef
  have hcx1 : 1 ≤ cx := clampX_ge_one cols w x
  have hcx2 : cx ≤ cols - w + 1 := clampX_le cols w x hwc
  have hcy1 : 1 ≤ cy := clampY_ge_one y
  cases hscan : scanRows occ w h cx cnt cy 20 with
  | none =>
    rw [hscan] at hvp
    have hvp' : validatePosition cols true occ x y w h = (cx, cy) := hvp
    rw [hvp']
    exact ⟨hcx1, by omega, hcy1⟩
  | some p =>
    rw [hscan] at hvp
    obtain ⟨tx, ty⟩ := p
    obtain ⟨i, hi, hty, hrow, _⟩ :=
      scanRows_some_spec occ w h cx cnt 20 cy tx ty hscan
    obtain ⟨j, hj, htx, _, _⟩ :=
      scanRow_some_spec occ w h (cy + i) cnt cx tx hrow
    rw [hvp]
    refine ⟨?_, ?_, ?_⟩ <;> simp only [] <;> omega

/-- C1 (amended: the candidate width must fit the grid, `w ≤ cols`).
For a candidate `(x,y,w,h)` with `w,h ≥ 1` and `w ≤ cols`,
`validatePosition` with overlap prevention on clamps `x` into
`[1, cols-w+1]` and `y` to `≥ 1` and scans row-major over rows
`y..y+19` and columns `x..cols-w+1`.  The result satisfies
`1 ≤ x`, `x + w - 1 ≤ cols` and `y ≥ 1`; when every cell of the bounded
window overlaps the occupancy, the clamped original is returned
unchanged; and when some cell of the window is overlap-free, the result
is overlap-free and is the first free cell in row-major order. -/
theorem validatePosition_search_spec (cols x y w h : Int) (occ : Int → Int → Bool)
    (hw : 1 ≤ w) (hh : 1 ≤ h) (hwc : w ≤ cols) :
    (1 ≤ (validatePosition cols true occ x y w h).1 ∧
     (validatePosition cols true occ x y w h).1 + w - 1 ≤ cols ∧
     1 ≤ (validatePosition cols true occ x y w h).2) ∧
    ((∀ i j : Nat, i < 20 → (j : Int) < cols - w + 2 - clampX cols w x →
        hasOverlap (clampX cols w x + j) (clampY y + i) w h occ = true) →
      validatePosition cols true occ x y w h = (clampX cols w x, clampY y)) ∧
    (∀ i j : Nat, i < 20 → (j : Int) < cols - w + 2 - clampX cols w x →
      hasOverlap (clampX cols w x + j) (clampY y + i) w h occ = false →
      hasOverlap (validatePosition cols true occ x y w h).1
          (validatePosition cols true occ x y w h).2 w h occ = false ∧
      ∃ i' j' : Nat, i' < 20 ∧ (j' : Int) < cols - w + 2 - clampX cols w x ∧
        validatePosition cols true occ x y w h = (clampX cols w x + j', clampY y + i') ∧
        ∀ i2 j2 : Nat, i2 < 20 → (j2 : Int) < cols - w + 2 - clampX cols w x →
          (i2 < i' ∨ (i2 = i' ∧ j2 < j')) →
          hasOverlap (clampX cols w x + j2) (clampY y + i2) w h occ = true) := by
  have hvp := validatePosition_eq_scan cols x y w h occ
  set cx := clampX cols w x with hcxdef
  set cy := clampY y with hcydef
  set cnt := (cols - w + 2 - cx).toNat with hcntdef
  have hcx1 : 1 ≤ cx := clampX_ge_one cols w x
  have hcx2 : cx ≤ cols - w + 1 := clampX_le cols w x hwc
  have hcy1 : 1 ≤ cy := clampY_ge_one y
  cases hscan : scanRows occ w h cx cnt cy 20 with
  | none =>
    rw [hscan] at hvp
    have hall : ∀ i : Nat, i < 20 → ∀ j : Nat, j < cnt →
        hasOverlap (cx + j) (cy + i) w h occ = true := by
      intro i hi
      exact (scanRow_none_iff occ w h (cy + i) cnt cx).mp
        ((scanRows_none_iff occ w h cx cnt 20 cy).mp hscan i hi)
    refine ⟨validatePosition_result_bounds cols x y w h occ hwc, fun _ => hvp, ?_⟩
    intro i j hi hj hfree
    have hjcnt : j < cnt := by omega
    have := hall i hi j hjcnt
    rw [this] at hfree
    exact absurd hfree (by simp)
  | some p =>
    rw [hscan] at hvp
    obtain ⟨tx, ty⟩ := p
    obtain ⟨i, hi, hty, hrow, hbeforerows⟩ :=
      scanRows_some_spec occ w h cx cnt 20 cy tx ty hscan
    obtain ⟨j, hj, htx, hfree, hbeforecols⟩ :=
      scanRow_some_spec occ w h (cy + i) cnt cx tx hrow
    have hjint : (j : Int) < cols - w + 2 - cx := by omega
    have hfound : validatePosition cols true occ x y w h = (cx + (j : Int), cy + (i : Int)) := by
      rw [hvp, htx, hty]
    refine ⟨validatePosition_result_bounds cols x y w h occ hwc, ?_, ?_⟩
    · intro hall
      have hcontr := hall i j hi hjint
      rw [htx, hcontr] at hfree
      exact absurd hfree (by simp)
    · intro i0 j0 hi0 hj0 hfree0
      constructor
      · rw [hfound]
        simpa [htx, hty] using hfree
      · refine ⟨i, j, hi, hjint, hfound, ?_⟩
        intro i2 j2 hi2 hj2 hlt
        have hj2cnt : j2 < cnt := by omega
        rcases hlt with hlt | ⟨heq, hlt⟩
        · have hnone := hbeforerows i2 hlt
          exact (scanRow_none_iff occ w h (cy + i2) cnt cx).mp hnone j2 hj2cnt
        · subst heq
          exact hbeforecols j2 hlt

/-- Witness for C1 at the spec's placement scenario: `cols = 12`, widget
`A` at `(1,1,3,2)`, candidate `(1,1,3,2)` for a different widget: the
returned placement does not overlap `A` (it is `(4,1)`, the first free
cell of the row-major scan). -/
theorem validatePosition_search_spec_witness :
    hasOverlap (validatePosition 12 true occA 1 1 3 2).1
      (validatePosition 12 true occA 1 1 3 2).2 3 2 occA = false :=
  ((validatePosition_search_spec 12 1 1 3 2 occA (by decide) (by decide) (by decide)).2.2
    0 3 (by decide) (by decide) (by decide)).1

/-- Counterexample to C1 as stated: with `w = 13 > cols = 12` (and no
occupancy at all) the returned placement violates `x + w - 1 ≤ cols`. -/
theorem validatePosition_bound_fails_when_too_wide :
    validatePosition 12 true occEmpty 1 1 13 1 = (1, 1) ∧
    ¬((validatePosition 12 true occEmpty 1 1 13 1).1 + 13 - 1 ≤ 12) := by decide

/-- C9 (amended: requires the maximum widget width to fit the grid,
`maxWidgetW = 12 ≤ cols`, which holds for the default 12-column grid).
Every resize-session result committed through `validateResize` satisfies
`1 ≤ w ≤ 12`, `1 ≤ h ≤ 8`, `y ≥ 1` and `1 ≤ x`, `x + w - 1 ≤ cols`; and
the `se`-handle scenario: resizing `(1,1,3,2)` by `+2` columns and `+1`
row yields `w = 5`, `h = 3` with the anchor `(1,1)` unchanged. -/
theorem validateResize_spec (cols : Int) (occ : Int → Int → Bool) (r : RectI)
    (hcols : maxWidgetW ≤ cols) :
    (1 ≤ (validateResize cols true occ r).w ∧ (validateResize cols true occ r).w ≤ 12 ∧
     1 ≤ (validateResize cols true occ r).h ∧ (validateResize cols true occ r).h ≤ 8 ∧
     1 ≤ (validateResize cols true occ r).x ∧
     (validateResize cols true occ r).x + (validateResize cols true occ r).w - 1 ≤ cols ∧
     1 ≤ (validateResize cols true occ r).y) ∧
    calculateResize .dse 2 1 1 1 3 2 = { x := 1, y := 1, w := 5, h := 3 } ∧
    validateResize 12 true occEmpty { x := 1, y := 1, w := 5, h := 3 } =
      { x := 1, y := 1, w := 5, h := 3 } := by
  refine ⟨?_, by decide, by decide⟩
  set w' := max minWidgetW (min maxWidgetW r.w) with hw'def
  set h' := max minWidgetH (min maxWidgetH r.h) with hh'def
  set x1 := min (cols - w' + 1) (max 1 r.x) with hx1def
  set y0 := max 1 r.y with hy0def
  have hvr : validateResize cols true occ r =
      { x := (validatePosition cols true occ x1 y0 w' h').1
      , y := (validatePosition cols true occ x1 y0 w' h').2
      , w := w', h := h' } := rfl
  have hminW : minWidgetW = 1 := rfl
  have hmaxW : maxWidgetW = 12 := rfl
  have hminH : minWidgetH = 1 := rfl
  have hmaxH : maxWidgetH = 8 := rfl
  have hw1 : minWidgetW ≤ w' := le_max_left _ _
  have hw2 : w' ≤ maxWidgetW := max_le (by rw [hminW, hmaxW]; omega) (min_le_left _ _)
  have hh1 : minWidgetH ≤ h' := le_max_left _ _
  have hh2 : h' ≤ maxWidgetH := max_le (by rw [hminH, hmaxH]; omega) (min_le_left _ _)
  have hwc : w' ≤ cols := le_trans hw2 hcols
  have hpos := validatePosition_result_bounds cols x1 y0 w' h' occ hwc
  rw [hvr]
  simp only []
  refine ⟨by omega, by omega, by omega, by omega, hpos.1, hpos.2.1, hpos.2.2⟩

/-- Witness for C9: a wildly out-of-range candidate on the default
12-column grid is clamped into a fully in-bounds rectangle. -/
theorem validateResize_spec_witness :
    1 ≤ (validateResize 12 true occEmpty { x := -3, y := 0, w := 20, h := 9 }).x ∧
    (validateResize 12 true occEmpty { x := -3, y := 0, w := 20, h := 9 }).x +
      (validateResize 12 true occEmpty { x := -3, y := 0, w := 20, h := 9 }).w - 1 ≤ 12 :=
  ⟨((validateResize_spec 12 occEmpty { x := -3, y := 0, w := 20, h := 9 }
      (by decide)).1).2.2.2.2.1,
   ((validateResize_spec 12 occEmpty { x := -3, y := 0, w := 20, h := 9 }
      (by decide)).1).2.2.2.2.2.1⟩

/-- Counterexample to C9 as stated: on a 6-column grid a reachable
`se`-handle resize result has `w = 12 > cols`, and the committed
rectangle violates both `x + w - 1 ≤ cols` and `x ≤ cols - w + 1`. -/
theorem validateResize_bound_fails_narrow_grid :
    validateResize 6 true occEmpty (calculateResize .dse 9 1 1 1 3 2) =
      { x := 1, y := 1, w := 12, h := 3 } ∧
    ¬((validateResize 6 true occEmpty (calculateResize .dse 9 1 1 1 3 2)).x +
      (validateResize 6 true occEmpty (calculateResize .dse 9 1 1 1 3 2)).w - 1 ≤ 6) := by
  decide

/-- C3 (amended).  A plain arrow keypress moves the focused widget by 1
grid unit (5 with Shift) through exactly the drag validation path
(`validatePosition` on the stepped candidate) and commits exactly one
`moveWidget` call.  A modifier-held arrow keypress, however, first runs
the same movement branch (the `moveWidget` commit included) and then
resizes by 1 unit (2 with Shift) using only the min/max size clamps — no
grid-bounds clamp and no overlap search — committing a second store call
(`resizeWidget`), for two store calls in total. -/
theorem handleKeyDown_spec (cols : Int) (po : Bool) (occ : Int → Int → Bool)
    (shift : Bool) (k : Arrow) (cfg : RectI) :
    (handleKeyDown cols po occ shift false k cfg =
      ({ cfg with
          x := (validatePosition cols po occ
            (keyMoveCandidate cols (if shift then 5 else 1) k cfg).1
            (keyMoveCandidate cols (if shift then 5 else 1) k cfg).2 cfg.w cfg.h).1
        , y := (validatePosition cols po occ
            (keyMoveCandidate cols (if shift then 5 else 1) k cfg).1
            (keyMoveCandidate cols (if shift then 5 else 1) k cfg).2 cfg.w cfg.h).2 },
       [.move (validatePosition cols po occ
            (keyMoveCandidate cols (if shift then 5 else 1) k cfg).1
            (keyMoveCandidate cols (if shift then 5 else 1) k cfg).2 cfg.w cfg.h).1
          (validatePosition cols po occ
            (keyMoveCandidate cols (if shift then 5 else 1) k cfg).1
            (keyMoveCandidate cols (if shift then 5 else 1) k cfg).2 cfg.w cfg.h).2])) ∧
    (handleKeyDown cols po occ shift false k cfg).2.length = 1 ∧
    (handleKeyDown cols po occ shift true k cfg =
      ({ x := (validatePosition cols po occ
            (keyMoveCandidate cols (if shift then 5 else 1) k cfg).1
            (keyMoveCandidate cols (if shift then 5 else 1) k cfg).2 cfg.w cfg.h).1
        , y := (validatePosition cols po occ
            (keyMoveCandidate cols (if shift then 5 else 1) k cfg).1
            (keyMoveCandidate cols (if shift then 5 else 1) k cfg).2 cfg.w cfg.h).2
        , w := (keyResize (if shift then 2 else 1) k cfg.w cfg.h).1
        , h := (keyResize (if shift then 2 else 1) k cfg.w cfg.h).2 },
       [.move (validatePosition cols po occ
            (keyMoveCandidate cols (if shift then 5 else 1) k cfg).1
            (keyMoveCandidate cols (if shift then 5 else 1) k cfg).2 cfg.w cfg.h).1
          (validatePosition cols po occ
            (keyMoveCandidate cols (if shift then 5 else 1) k cfg).1
            (keyMoveCandidate cols (if shift then 5 else 1) k cfg).2 cfg.w cfg.h).2,
        .resize (keyResize (if shift then 2 else 1) k cfg.w cfg.h).1
          (keyResize (if shift then 2 else 1) k cfg.w cfg.h).2])) ∧
    (handleKeyDown cols po occ shift true k cfg).2.length = 2 :=
  ⟨rfl, rfl, rfl, rfl⟩

/-- Counterexample to C3 as stated: on the default 12-column grid, a
Ctrl+ArrowRight on the widget at `(10,1,3,2)` commits the rectangle
`(10,1,4,2)` — which the resize clamp/validate path would have moved to
`x = 9` — and issues two store calls, not one. -/
theorem handleKeyDown_resize_diverges :
    handleKeyDown 12 true occEmpty false true .right { x := 10, y := 1, w := 3, h := 2 } =
      ({ x := 10, y := 1, w := 4, h := 2 }, [.move 10 1, .resize 4 2]) ∧
    validateResize 12 true occEmpty { x := 10, y := 1, w := 4, h := 2 } =
      { x := 9, y := 1, w := 4, h := 2 } ∧
    ¬((handleKeyDown 12 true occEmpty false true .right
        { x := 10, y := 1, w := 3, h := 2 }).2.length = 1) := by decide

/-! ## Lemmas about first-match mutation of the widget list -/

theorem mutateFirst_ok_of_mem (f : Widget → Widget) (id : String) :
    ∀ ws : List Widget, (∃ wd ∈ ws, wd.id = id) →
      ∃ ws', mutateFirst f id ws = .ok ws' := by
  intro ws
  induction ws with
  | nil => rintro ⟨wd, hmem, _⟩; exact absurd hmem (List.not_mem_nil wd)
  | cons wd ws ih =>
    rintro ⟨wd0, hmem, hid⟩
    by_cases hd : wd.id = id
    · exact ⟨f wd :: ws, by simp [mutateFirst, hd]⟩
    · have htail : ∃ wd1 ∈ ws, wd1.id = id := by
        rcases List.mem_cons.mp hmem with heq | hmem'
        · exact absurd (heq ▸ hid) hd
        · exact ⟨wd0, hmem', hid⟩
      obtain ⟨ws', hws'⟩ := ih htail
      exact ⟨wd :: ws', by simp [mutateFirst, hd, hws', Except.map]⟩

theorem mutateFirst_notFound (f : Widget → Widget) (id : String) :
    ∀ ws : List Widget, (∀ wd ∈ ws, wd.id ≠ id) →
      mutateFirst f id ws = .error .notFound := by
  intro ws
  induction ws with
  | nil => intro _; rfl
  | cons wd ws ih =>
    intro hall
    have hd : wd.id ≠ id := hall wd (List.mem_cons_self wd ws)
    have := ih fun wd1 h1 => hall wd1 (List.mem_cons_of_mem wd h1)
    simp [mutateFirst, hd, this, Except.map]

theorem mutateFirst_ok_spec (f : Widget → Widget) (id : String) :
    ∀ ws ws' : List Widget, mutateFirst f id ws = .ok ws' →
      ∃ pre wd post, ws = pre ++ wd :: post ∧ wd.id = id ∧
        (∀ w0 ∈ pre, w0.id ≠ id) ∧ ws' = pre ++ f wd :: post := by
  intro ws
  induction ws with
  | nil => intro ws' h; exact absurd h (by simp [mutateFirst])
  | cons wd ws ih =>
    intro ws' h
    by_cases hd : wd.id = id
    · rw [mutateFirst, if_pos hd] at h
      exact ⟨[], wd, ws, by simp, hd, by simp, by simpa using h.symm⟩
    · rw [mutateFirst, if_neg hd] at h
      cases hrec : mutateFirst f id ws with
      | error e => rw [hrec] at h; exact absurd h (by simp [Except.map])
      | ok l =>
        rw [hrec] at h
        have hws' : ws' = wd :: l := by
          simpa [Except.map] using h.symm
        obtain ⟨pre, wd1, post, heq, hid1, hpre, hl⟩ := ih l hrec
        exact ⟨wd :: pre, wd1, post, by simp [heq], hid1,
          by intro w0 hw0; rcases List.mem_cons.mp hw0 with h0 | h0
             · exact h0 ▸ hd
             · exact hpre w0 h0,
          by simp [hws', hl]⟩

theorem mutateFirst_append (f : Widget → Widget) (id : String) :
    ∀ (pre : List Widget) (wd : Widget) (post : List Widget),
      (∀ w0 ∈ pre, w0.id ≠ id) → wd.id = id →
      mutateFirst f id (pre ++ wd :: post) = .ok (pre ++ f wd :: post) := by
  intro pre
  induction pre with
  | nil => intro wd post _ hid; simp [mutateFirst, hid]
  | cons p pre ih =>
    intro wd post hall hid
    have hp : p.id ≠ id := hall p (List.mem_cons_self p pre)
    have := ih wd post (fun w0 h0 => hall w0 (List.mem_cons_of_mem p h0)) hid
    simp [mutateFirst, hp, this, Except.map]

theorem updateWidgetList_ok_spec (p : WidgetPatch) (id : String) :
    ∀ ws ws' : List Widget, updateWidgetList p id ws = .ok ws' →
      ∃ pre wd post, ws = pre ++ wd :: post ∧ wd.id = id ∧
        (∀ w0 ∈ pre, w0.id ≠ id) ∧
        validateWidget (applyPatch wd p) = true ∧
        ws' = pre ++ applyPatch wd p :: post := by
  intro ws
  induction ws with
  | nil => intro ws' h; exact absurd h (by simp [updateWidgetList])
  | cons wd ws ih =>
    intro ws' h
    by_cases hd : wd.id = id
    · rw [updateWidgetList, if_pos hd] at h
      by_cases hv : validateWidget (applyPatch wd p) = true
      · rw [if_pos hv] at h
        exact ⟨[], wd, ws, by simp, hd, by simp, hv, by simpa using h.symm⟩
      · rw [if_neg hv] at h
        exact absurd h (by simp)
    · rw [updateWidgetList, if_neg hd] at h
      cases hrec : updateWidgetList p id ws with
      | error e => rw [hrec] at h; exact absurd h (by simp [Except.map])
      | ok l =>
        rw [hrec] at h
        have hws' : ws' = wd :: l := by simpa [Except.map] using h.symm
        obtain ⟨pre, wd1, post, heq, hid1, hpre, hv, hl⟩ := ih l hrec
        exact ⟨wd :: pre, wd1, post, by simp [heq], hid1,
          by intro w0 hw0; rcases List.mem_cons.mp hw0 with h0 | h0
             · exact h0 ▸ hd
             · exact hpre w0 h0,
          hv, by simp [hws', hl]⟩

theorem updateWidgetList_notFound (p : WidgetPatch) (id : String) :
    ∀ ws : List Widget, (∀ wd ∈ ws, wd.id ≠ id) →
      updateWidgetList p id ws = .error .notFound := by
  intro ws
  induction ws with
  | nil => intro _; rfl
  | cons wd ws ih =>
    intro hall
    have hd : wd.id ≠ id := hall wd (List.mem_cons_self wd ws)
    have := ih fun wd1 h1 => hall wd1 (List.mem_cons_of_mem wd h1)
    simp [updateWidgetList, hd, this, Except.map]

/-- Negating `minimized` twice restores the widget. -/
theorem toggleMin_involutive (wd : Widget) :
    { wd with minimized := !(!wd.minimized) } = wd := by
  cases wd
  simp

/-- C10.  For a widget id present in the list,
`toggleWidgetMinimized(id)` succeeds, negates exactly the `minimized`
flag of the first widget carrying the id (all its other fields, all
other widgets, the grid, theme and version stay unchanged), and applying
it twice restores the original state. -/
theorem toggleWidgetMinimized_spec (s : DashboardState) (id : String)
    (hmem : ∃ wd ∈ s.widgets, wd.id = id) :
    ∃ s', toggleWidgetMinimized s id = .ok s' ∧
      s'.grid = s.grid ∧ s'.theme = s.theme ∧ s'.version = s.version ∧
      (∃ pre wd post, s.widgets = pre ++ wd :: post ∧ wd.id = id ∧
        (∀ w0 ∈ pre, w0.id ≠ id) ∧
        s'.widgets = pre ++ { wd with minimized := !wd.minimized } :: post) ∧
      toggleWidgetMinimized s' id = .ok s := by
  obtain ⟨ws', hok⟩ :=
    mutateFirst_ok_of_mem (fun wd => { wd with minimized := !wd.minimized }) id s.widgets hmem
  obtain ⟨pre, wd, post, hsplit, hid, hpre, hws'⟩ :=
    mutateFirst_ok_spec (fun wd => { wd with minimized := !wd.minimized }) id s.widgets ws' hok
  refine ⟨{ s with widgets := ws' }, ?_, rfl, rfl, rfl, ⟨pre, wd, post, hsplit, hid, hpre, hws'⟩, ?_⟩
  · rw [toggleWidgetMinimized, hok]; rfl
  · have hback :
        mutateFirst (fun wd => { wd with minimized := !wd.minimized }) id ws' =
          .ok (pre ++ wd :: post) := by
      have := mutateFirst_append (fun wd => { wd with minimized := !wd.minimized }) id
        pre { wd with minimized := !wd.minimized } post hpre hid
      rw [hws', this]
      simp only []
      rw [toggleMin_involutive]
    rw [toggleWidgetMinimized]
    simp only []
    rw [hback]
    simp [Except.map, ← hsplit]

/-- Witness for C10: toggling the single widget of `stateA`. -/
theorem toggleWidgetMinimized_spec_witness :
    ∃ s', toggleWidgetMinimized stateA "a" = .ok s' ∧
      s'.grid = stateA.grid ∧ s'.theme = stateA.theme ∧ s'.version = stateA.version ∧
      (∃ pre wd post, stateA.widgets = pre ++ wd :: post ∧ wd.id = "a" ∧
        (∀ w0 ∈ pre, w0.id ≠ "a") ∧
        s'.widgets = pre ++ { wd with minimized := !wd.minimized } :: post) ∧
      toggleWidgetMinimized s' "a" = .ok stateA :=
  toggleWidgetMinimized_spec stateA "a" ⟨widgetA, by decide, by decide⟩

/-- C2 (amended).  Only `addWidget`, `updateWidget` and `setTheme`
validate their input values: `addWidget` rejects exactly the invalid
widgets, `updateWidget` succeeds only when the patched widget is valid
(and fails with `notFound` on an unknown id), and `setTheme` rejects
exactly the unknown themes.  `moveWidget` and `resizeWidget` check only
that the id exists and then mutate without any placement validation
(they succeed for arbitrary integer coordinates), and `updateGrid`
clamps its input instead of throwing.  Every operation that throws does
so before mutating, so a failed call leaves the state unchanged. -/
theorem storeMutations_validation_spec :
    (∀ (gen : String → String) (s : DashboardState) (wd : Widget),
      addWidget gen s wd = .error .validation ↔ validateWidget wd = false) ∧
    (∀ (s : DashboardState) (id : String) (p : WidgetPatch) (s' : DashboardState),
      updateWidget s id p = .ok s' →
      ∃ pre wd post, s.widgets = pre ++ wd :: post ∧ wd.id = id ∧
        (∀ w0 ∈ pre, w0.id ≠ id) ∧
        validateWidget (applyPatch wd p) = true ∧
        s'.widgets = pre ++ applyPatch wd p :: post) ∧
    (∀ (s : DashboardState) (id : String) (p : WidgetPatch),
      (∀ wd ∈ s.widgets, wd.id ≠ id) → updateWidget s id p = .error .notFound) ∧
    (∀ (s : DashboardState) (id : String) (x y : Int),
      (∃ wd ∈ s.widgets, wd.id = id) → ∃ s', moveWidget s id x y = .ok s') ∧
    (∀ (s : DashboardState) (id : String) (x y : Int),
      (∀ wd ∈ s.widgets, wd.id ≠ id) → moveWidget s id x y = .error .notFound) ∧
    (∀ (s : DashboardState) (id : String) (w h : Int),
      (∃ wd ∈ s.widgets, wd.id = id) → ∃ s', resizeWidget s id w h = .ok s') ∧
    (∀ (s : DashboardState) (t : String),
      setTheme s t = .error .validation ↔ validThemes.contains t = false) ∧
    (∀ (s : DashboardState) (p : GridPatch),
      1 ≤ (updateGrid s p).grid.cols ∧ (updateGrid s p).grid.cols ≤ 24 ∧
      1 ≤ (updateGrid s p).grid.rowHeight ∧ 0 ≤ (updateGrid s p).grid.gap) := by
  refine ⟨?_, ?_, ?_, ?_, ?_, ?_, ?_, ?_⟩
  · intro gen s wd
    by_cases hv : validateWidget wd = true
    · simp [addWidget, hv]
    · simp [addWidget, hv]
  · intro s id p s' h
    rw [updateWidget] at h
    cases hrec : updateWidgetList p id s.widgets with
    | error e => rw [hrec] at h; exact absurd h (by simp [Except.map])
    | ok l =>
      rw [hrec] at h
      have hs' : s' = { s with widgets := l } := by simpa [Except.map] using h.symm
      obtain ⟨pre, wd, post, hsplit, hid, hpre, hv, hl⟩ := updateWidgetList_ok_spec p id s.widgets l hrec
      exact ⟨pre, wd, post, hsplit, hid, hpre, hv, by rw [hs']; exact hl⟩
  · intro s id p hall
    rw [updateWidget, updateWidgetList_notFound p id s.widgets hall]; rfl
  · intro s id x y hmem
    obtain ⟨ws', hok⟩ := mutateFirst_ok_of_mem (fun wd => { wd with x := x, y := y }) id s.widgets hmem
    exact ⟨{ s with widgets := ws' }, by rw [moveWidget, hok]; rfl⟩
  · intro s id x y hall
    rw [moveWidget, mutateFirst_notFound _ _ _ hall]; rfl
  · intro s id w h hmem
    obtain ⟨ws', hok⟩ := mutateFirst_ok_of_mem (fun wd => { wd with w := w, h := h }) id s.widgets hmem
    exact ⟨{ s with widgets := ws' }, by rw [resizeWidget, hok]; rfl⟩
  · intro s t
    by_cases ht : validThemes.contains t = true
    · simp [setTheme, ht]
    · simp only [Bool.not_eq_true] at ht
      simp [setTheme, ht]
  · intro s p
    refine ⟨le_max_left _ _, ?_, le_max_left _ _, le_max_left _ _⟩
    exact max_le (by omega) (min_le_left _ _)

/-- Witness for C2: `moveWidget` on `stateA` succeeds even for the
out-of-bounds target `(0, 0)` (no placement validation), and
`moveWidget` on an unknown id fails with `notFound`. -/
theorem storeMutations_validation_spec_witness :
    (∃ s', moveWidget stateA "a" 0 0 = .ok s') ∧
    moveWidget stateA "zzz" 2 2 = .error .notFound :=
  ⟨storeMutations_validation_spec.2.2.2.1 stateA "a" 0 0 ⟨widgetA, by decide, by decide⟩,
   storeMutations_validation_spec.2.2.2.2.1 stateA "zzz" 2 2 (by decide)⟩

/-- Counterexample to C2 as stated: `moveWidget` accepts `(0, 0)` — a
malformed placement (`x < 1`, `y < 1`) — and mutates the state, instead
of throwing and leaving the state unchanged. -/
theorem moveWidget_accepts_invalid_placement :
    moveWidget stateA "a" 0 0 =
      .ok { defaultState with widgets := [{ widgetA with x := 0, y := 0 }] } ∧
    validateWidget { widgetA with x := 0, y := 0 } = false := ⟨rfl, rfl⟩

/-- C4 (amended).  `load()` falls back to the built-in default state and
schedules a (debounced, not immediate) persist when no record exists or
when the (migrated) record fails validation; on a valid record it
installs the merged state without persisting.  A read/parse failure,
however, escapes `load()` (the catch block re-throws); only `init()`
swallows it, keeping the default state with nothing persisted — so
read/parse failures never escape `init()`, not `load()`. -/
theorem load_spec (gen : String → String) :
    load gen .absent = .ok (defaultState, .scheduledSave) ∧
    load gen .corrupt = .error () ∧
    (∀ r : StoredRecord, validateState (migrateState gen r) = true →
      load gen (.record r) = .ok (mergeState defaultState (migrateState gen r), .noSave)) ∧
    (∀ r : StoredRecord, validateState (migrateState gen r) = false →
      load gen (.record r) = .ok (defaultState, .scheduledSave)) ∧
    (∀ (r : StorageRead) (e : Unit), load gen r = .error e → r = .corrupt) ∧
    init gen .corrupt = (defaultState, .noSave) := by
  refine ⟨rfl, rfl, ?_, ?_, ?_, rfl⟩
  · intro r hv; simp [load, hv]
  · intro r hv; simp [load, hv]
  · intro r e h
    cases r with
    | absent => exact absurd h (by simp [load])
    | corrupt => rfl
    | record rec =>
      rw [load] at h
      by_cases hv : validateState (migrateState gen rec) = true
      · rw [if_pos hv] at h; exact absurd h (by simp)
      · rw [if_neg hv] at h; exact absurd h (by simp)

/-- Witness for C4: a valid stored record (the record view of `stateA`)
loads as the merged state with no save scheduled. -/
theorem load_spec_witness :
    load genFresh (.record (toRecord stateA)) =
      .ok (mergeState defaultState (migrateState genFresh (toRecord stateA)), .noSave) :=
  (load_spec genFresh).2.2.1 (toRecord stateA) (by decide)

/-- Counterexample to C4 as stated: a read/parse failure does escape
`load()` — the catch block logs and re-throws. -/
theorem load_corrupt_throws : load genFresh .corrupt = .error () := rfl

/-- C5.  On a quota-exceeded write failure the store trims the widget
list to the most-recently-added 20 (`slice(-20)`), retries the write
exactly once (the write trace shows the full list and then exactly one
trimmed attempt), and resets to the built-in default state if the retry
also fails; trimming preserves grid, theme and version.  In the spec's
scenario — 25 widgets, quota failure, successful retry — the resulting
state holds exactly the last 20 widgets with grid and theme intact. -/
theorem saveImmediate_quota_spec :
    (∀ s : DashboardState, saveImmediate .quotaFull true s =
      (essentialState s, [s.widgets, (essentialState s).widgets])) ∧
    (∀ s : DashboardState, saveImmediate .quotaFull false s =
      (defaultState, [s.widgets, (essentialState s).widgets, defaultState.widgets])) ∧
    (∀ s : DashboardState,
      (essentialState s).grid = s.grid ∧ (essentialState s).theme = s.theme ∧
      (essentialState s).version = s.version ∧
      (essentialState s).widgets = s.widgets.drop (s.widgets.length - 20) ∧
      (essentialState s).widgets.length = min s.widgets.length 20) ∧
    ((saveImmediate .quotaFull true state25).1.widgets.length = 20 ∧
     (saveImmediate .quotaFull true state25).1.widgets = state25.widgets.drop 5 ∧
     (saveImmediate .quotaFull true state25).1.grid = state25.grid ∧
     (saveImmediate .quotaFull true state25).1.theme = state25.theme) := by
  refine ⟨fun s => rfl, fun s => rfl, ?_, by decide, by decide, rfl, rfl⟩
  intro s
  refine ⟨rfl, rfl, rfl, rfl, ?_⟩
  rw [essentialState]
  simp only [List.length_drop]
  omega

/-- C6.  For a valid current state, `importLayout(exportLayout())`
succeeds and yields a state with the same widget count, grid and theme
(ids are freshly assigned); an import failure is an `Except.error`, so
the pre-import state is untouched. -/
theorem exportImport_roundtrip (gen : String → String) (s : DashboardState)
    (hval : validLiveState s = true) (hver : s.version = currentVersion) :
    ∃ s', importLayout gen s (some (exportLayout s)) = .ok s' ∧
      s'.widgets.length = s.widgets.length ∧
      s'.grid = s.grid ∧ s'.theme = s.theme ∧ s'.version = s.version := by
  have hne : s.version ≠ "" := by rw [hver]; decide
  have hrv : recordVersion (toRecord s) = currentVersion := by
    show (if s.version = "" then "0.0.0" else s.version) = currentVersion
    rw [if_neg hne, hver]
  have hmig : migrateState gen (toRecord s) = toRecord s := by
    rw [migrateState, if_pos hrv]
  refine ⟨{ grid := s.grid
          , widgets := s.widgets.map fun wd => { wd with id := gen wd.ty }
          , theme := s.theme, version := s.version }, ?_, by simp, rfl, rfl, rfl⟩
  rw [importLayout]
  simp only [exportLayout, hmig]
  rw [if_pos (by exact hval)]
  rfl

/-- Witness for C6: round-tripping the one-widget state `stateA`. -/
theorem exportImport_roundtrip_witness :
    ∃ s', importLayout genFresh stateA (some (exportLayout stateA)) = .ok s' ∧
      s'.widgets.length = stateA.widgets.length ∧
      s'.grid = stateA.grid ∧ s'.theme = stateA.theme ∧ s'.version = stateA.version :=
  exportImport_roundtrip genFresh stateA (by decide) (by decide)

/-- C7.  Migration is idempotent: a record already carrying the current
version is returned unchanged, every migrated record carries the current
version, and hence running `migrateState` twice equals running it
once. -/
theorem migrateState_idempotent (gen : String → String) :
    (∀ r : StoredRecord, r.version = some currentVersion → migrateState gen r = r) ∧
    (∀ r : StoredRecord, (migrateState gen r).version = some currentVersion) ∧
    (∀ r : StoredRecord, migrateState gen (migrateState gen r) = migrateState gen r) := by
  have hid : ∀ r : StoredRecord, r.version = some currentVersion → migrateState gen r = r := by
    intro r hv
    have hrv : recordVersion r = currentVersion := by
      simp [recordVersion, hv, currentVersion]
    rw [migrateState, if_pos hrv]
  have hver : ∀ r : StoredRecord, (migrateState gen r).version = some currentVersion := by
    intro r
    by_cases hrv : recordVersion r = currentVersion
    · rw [migrateState, if_pos hrv]
      cases hv : r.version with
      | none => rw [recordVersion, hv] at hrv; exact absurd hrv (by decide)
      | some v =>
        rw [recordVersion, hv] at hrv
        have hrv' : (if v = "" then "0.0.0" else v) = currentVersion := hrv
        by_cases hvv : v = ""
        · rw [if_pos hvv] at hrv'; exact absurd hrv' (by decide)
        · rw [if_neg hvv] at hrv'; rw [hrv']
    · rw [migrateState, if_neg hrv]
  exact ⟨hid, hver, fun r => hid (migrateState gen r) (hver r)⟩

/-- Witness for C7: migrating the (already current) record view of the
default state is a no-op. -/
theorem migrateState_idempotent_witness :
    migrateState genFresh (toRecord defaultState) = toRecord defaultState :=
  (migrateState_idempotent genFresh).1 (toRecord defaultState) rfl

/-! ## Lemmas about the debounce model -/

theorem deliverTimer_not_due (t d : Int) (w : Nat) (hlt : t < d) :
    deliverTimer t { pending := some d, writes := w } =
      { pending := some d, writes := w } := by
  simp only [deliverTimer]
  rw [if_neg (by omega)]

theorem doSave_replaces_timer (t d : Int) (w : Nat) (hlt : t < d) :
    doSave t { pending := some d, writes := w } =
      { pending := some (t + 500), writes := w } := by
  simp only [doSave]
  rw [deliverTimer_not_due t d w hlt]

theorem doFlush_pending (t d : Int) (w : Nat) (hlt : t < d) :
    doFlush t { pending := some d, writes := w } =
      { pending := none, writes := w + 1 } := by
  simp only [doFlush]
  rw [deliverTimer_not_due t d w hlt]

theorem runSaves_pending : ∀ (ts : List Int) (prev : Int) (w : Nat),
    within500 prev ts = true →
    runSaves ts { pending := some (prev + 500), writes := w } =
      { pending := some (lastTime prev ts + 500), writes := w } := by
  intro ts
  induction ts with
  | nil => intro prev w _; rfl
  | cons t ts ih =>
    intro prev w h
    rw [within500] at h
    simp only [Bool.and_eq_true, decide_eq_true_eq] at h
    obtain ⟨⟨h1, h2⟩, h3⟩ := h
    have hstep : runSaves (t :: ts) { pending := some (prev + 500), writes := w } =
        runSaves ts (doSave t { pending := some (prev + 500), writes := w }) := rfl
    rw [hstep, doSave_replaces_timer t (prev + 500) w h2, ih t w h3]
    rfl

/-- C8.  A burst of `N ≥ 1` `save()` calls, each arriving strictly
within 500 ms of the previous one, produces exactly one persisted write
(the pending timer is cancelled and replaced on each call, and fires
once at the end); and a `flush()` while a save is pending cancels the
timer and writes immediately, after which no second write from the
cancelled timer can follow. -/
theorem save_debounce_spec :
    (∀ (t0 : Int) (ts : List Int), within500 t0 ts = true →
      finalizeDebounce (runSaves ts (doSave t0 initialDebounce)) =
        { pending := none, writes := 1 }) ∧
    (∀ (t0 tf : Int) (ts : List Int), within500 t0 ts = true →
      tf < lastTime t0 ts + 500 →
      doFlush tf (runSaves ts (doSave t0 initialDebounce)) =
        { pending := none, writes := 1 } ∧
      finalizeDebounce (doFlush tf (runSaves ts (doSave t0 initialDebounce))) =
        { pending := none, writes := 1 }) := by
  have hstart : ∀ t0 : Int, doSave t0 initialDebounce =
      { pending := some (t0 + 500), writes := 0 } := fun _ => rfl
  constructor
  · intro t0 ts h
    rw [hstart t0, runSaves_pending ts t0 0 h]
    rfl
  · intro t0 tf ts h hf
    rw [hstart t0, runSaves_pending ts t0 0 h,
      doFlush_pending tf (lastTime t0 ts + 500) 0 hf]
    exact ⟨rfl, rfl⟩

/-- Witness for C8: three saves at `t = 0, 100, 200` coalesce into one
write; flushing at `t = 250` instead writes once and leaves nothing
pending. -/
theorem save_debounce_spec_witness :
    finalizeDebounce (runSaves [100, 200] (doSave 0 initialDebounce)) =
      { pending := none, writes := 1 } ∧
    doFlush 250 (runSaves [100, 200] (doSave 0 initialDebounce)) =
      { pending := none, writes := 1 } :=
  ⟨save_debounce_spec.1 0 [100, 200] (by decide),
   (save_debounce_spec.2 0 250 [100, 200] (by decide) (by decide)).1⟩

end Dashboard
